import Mathlib

/-
Verification of the feature_engine rule-validation engine
(src/feature_engine/model.py) against its design specification.

The data model and the operations are translated from the Python source:
  - enums become inductive types;
  - dataclasses become structures;
  - Python integers become Int, Python strings become String;
  - functions that raise exceptions become functions into Except Err _,
    with one Err constructor per exception class of the source;
  - loops with early return/raise become structural recursions with the
    same first-hit semantics;
  - `sorted(features, key=lambda f: f.guid)` becomes List.insertionSort
    with the corresponding comparator: both are stable sorts on the guid
    key, and stable sorts agree on every input;
  - `functools.reduce` without an initial value becomes `reduce` below,
    which errs on the empty list exactly as Python raises TypeError.
The debug-mode `print` calls in `compile` affect no control flow and no
result, so they have no counterpart in the embedding.
-/

namespace FeatureEngine

/-- `BindingTime` enum of model.py. -/
inductive BindingTime
| COMPILATION
| INITIALIZATION
| RUNTIME
deriving DecidableEq

/-- `RelationshipTypes` enum of model.py. -/
inductive RelationshipTypes
| ALTERNATIVE
| INCOMPATIBLE
| COMPLEX
deriving DecidableEq

/-- `Direction` enum of model.py. -/
inductive Direction
| TO_SELF
| TO_OTHER
deriving DecidableEq

/-- `Relationship` dataclass of model.py: a link to the feature with
guid `guid`, of kind `rel`. -/
structure Relationship where
  guid : Int
  rel : RelationshipTypes
deriving DecidableEq

/-- `DirectionalRelationship` dataclass of model.py. -/
structure DirectionalRelationship extends Relationship where
  direction : Direction
deriving DecidableEq

/-- `Feature` dataclass of model.py. -/
structure Feature where
  guid : Int
  name : String
  binding_time : BindingTime
  rationale : String
  is_mandatory : Bool
  relationships : List Relationship
deriving DecidableEq

/-- The exception classes of model.py that the embedded operations can
raise, each carrying the message the source formats.  `pyTypeError`
models the TypeError the Python runtime raises when `reduce` is applied
to an empty sequence without an initial value. -/
inductive Err
| noSuchFeature (msg : String)
| featureGuid (msg : String)
| compileExc (msg : String)
| pyTypeError
deriving DecidableEq

/-- True for the two guid-lookup failures (`NoSuchFeatureException`,
`FeatureGuidException`), false for compile violations and type errors. -/
def Err.isLookupFailure : Err → Bool
| .noSuchFeature _ => true
| .featureGuid _ => true
| _ => false

/-- The `for r in rs: if r.guid == guid: return r` loops inside
`Feature.get_rel_to`: first entry of `rs` whose target guid is `guid`. -/
def findRel (guid : Int) : List Relationship → Option Relationship
| [] => none
| r :: rest => if r.guid = guid then some r else findRel guid rest

/-- `Feature.get_rel_to` of model.py: search the feature's own declared
relationships for one targeting `other.guid`; unless `drop_direction`,
fall back to searching `other`'s declared relationships for one
targeting `self.guid`. -/
def Feature.get_rel_to (self other : Feature) (drop_direction : Bool) : Option Relationship :=
  match findRel other.guid self.relationships with
  | some r => some r
  | none => if drop_direction then none else findRel self.guid other.relationships

/-- `Feature.has_rel_to` of model.py (`get_rel_to` with the default
`drop_direction=False`). -/
def Feature.has_rel_to (self other : Feature) : Bool :=
  (self.get_rel_to other false).isSome

/-- `Feature.filter_relationships` of model.py. -/
def Feature.filter_relationships (self : Feature) (relationship_type : RelationshipTypes) :
    List Relationship :=
  self.relationships.filter (fun rel => rel.rel = relationship_type)

/-- `Feature.relationship_guids` of model.py. -/
def Feature.relationship_guids (self : Feature) : List Int :=
  self.relationships.map (fun r => r.guid)

/-- The `edge_rule` decorator of model.py.  Its wrapper calls the wrapped
rule unchanged (the docstring only notes it could be modified; it is not). -/
def edge_rule (rule_function : Feature → Feature → Bool × String) :
    Feature → Feature → Bool × String :=
  fun f g => rule_function f g

/-- Python enum member name, as it appears in the repr of a
`RelationshipTypes` value. -/
def RelationshipTypes.pyName : RelationshipTypes → String
| .ALTERNATIVE => "ALTERNATIVE"
| .INCOMPATIBLE => "INCOMPATIBLE"
| .COMPLEX => "COMPLEX"

/-- Python enum member value of a `RelationshipTypes` member. -/
def RelationshipTypes.value : RelationshipTypes → String
| .ALTERNATIVE => "alternative"
| .INCOMPATIBLE => "incompatible"
| .COMPLEX => "complex"

/-- The dataclass repr of a `Relationship`, as interpolated into the
conflict-rule message by the f-string in model.py.  (The Python repr
quotes the enum value; the quote characters are elided here.) -/
def Relationship.pyRepr (r : Relationship) : String :=
  "Relationship(guid=" ++ toString r.guid ++ ", rel=<RelationshipTypes." ++
    r.rel.pyName ++ ": " ++ r.rel.value ++ ">)"

/-- f-string interpolation of an `Optional[Relationship]`. -/
def strOfOptRel : Option Relationship → String
| some r => r.pyRepr
| none => "None"

/-- The failing message of `__disallow_obligatory_mutual_exclusion`. -/
def exclusionFailMsg (f1 f2 : Feature) : String :=
  "Obligatory functions cannot be mutually exclusive. Features: " ++
    f1.name ++ "/" ++ toString f1.guid ++ " and " ++ f2.name ++ "/" ++ toString f2.guid

/-- The success message of `__disallow_obligatory_mutual_exclusion`. -/
def exclusionOkMsg (f1 f2 : Feature) : String :=
  "OK: no mutual exclusion among mandatory features: " ++
    f1.name ++ "/" ++ toString f1.guid ++ " and " ++ f2.name ++ "/" ++ toString f2.guid

/-- `__disallow_obligatory_mutual_exclusion` of model.py: look up the
relationship between `f1` and `f2` (from either declaring side, first
match wins); if one is found and it is `INCOMPATIBLE` while both
features are mandatory, fail; in every other case (other kind, not both
mandatory, or no relationship — the source then evaluates the shared
logic at `COMPLEX`) succeed. -/
def __disallow_obligatory_mutual_exclusion : Feature → Feature → Bool × String :=
  edge_rule fun f1 f2 =>
    let eval_relationship : RelationshipTypes → Bool × String := fun relationship =>
      if relationship = RelationshipTypes.INCOMPATIBLE ∧ f1.is_mandatory ∧ f2.is_mandatory then
        (false, exclusionFailMsg f1 f2)
      else
        (true, exclusionOkMsg f1 f2)
    match f1.get_rel_to f2 false with
    | some rel => eval_relationship rel.rel
    | none => eval_relationship RelationshipTypes.COMPLEX

/-- The failing message of `__disallow_conflicting_relationships`; the
f-string interpolates the relationships found without `drop_direction`. -/
def conflictFailMsg (f1 f2 : Feature) : String :=
  "Conflicting relationships: " ++ f1.name ++ "/" ++ toString f1.guid ++ " and " ++
    f2.name ++ "/" ++ toString f2.guid ++ ": " ++
    f1.name ++ " has " ++ strOfOptRel (f1.get_rel_to f2 false) ++ " and " ++
    f2.name ++ " has " ++ strOfOptRel (f2.get_rel_to f1 false)

/-- The same message written over the two concrete relationships; used to
state that the failing message names both declared relationship kinds. -/
def conflictMsgOf (f1 f2 : Feature) (rf rg : Relationship) : String :=
  "Conflicting relationships: " ++ f1.name ++ "/" ++ toString f1.guid ++ " and " ++
    f2.name ++ "/" ++ toString f2.guid ++ ": " ++
    f1.name ++ " has " ++ rf.pyRepr ++ " and " ++
    f2.name ++ " has " ++ rg.pyRepr

/-- `__disallow_conflicting_relationships` of model.py: fail iff both
features declare (each in its own relationship list, `drop_direction`
lookups) a relationship to the other. -/
def __disallow_conflicting_relationships : Feature → Feature → Bool × String :=
  edge_rule fun f1 f2 =>
    if (f1.get_rel_to f2 true).isSome && (f2.get_rel_to f1 true).isSome then
      (false, conflictFailMsg f1 f2)
    else
      (true, "OK: no conflicting relationships")

/-- The `graph_rule` decorator of model.py; like `edge_rule`, its wrapper
calls the wrapped rule unchanged. -/
def graph_rule (rule_function : List Feature → List (Bool × String)) :
    List Feature → List (Bool × String) :=
  fun fg => rule_function fg

/-- The failing message yielded by `__disallow_nonunique_guids`. -/
def dupFailMsg (f fplus1 : Feature) : String :=
  "Features " ++ f.name ++ "/" ++ toString f.guid ++ " and " ++
    fplus1.name ++ "/" ++ toString fplus1.guid ++ " have the same guid"

/-- Comparator of `sorted(features, key=lambda f: f.guid)`. -/
def guidLe (a b : Feature) : Prop := a.guid ≤ b.guid

instance : DecidableRel guidLe :=
  fun a b => inferInstanceAs (Decidable (a.guid ≤ b.guid))

instance : IsTotal Feature guidLe := ⟨fun a b => Int.le_total a.guid b.guid⟩

instance : IsTrans Feature guidLe := ⟨fun _ _ _ hab hbc => le_trans hab hbc⟩

/-- The generator loop of `__disallow_nonunique_guids` over the sorted
list: for every adjacent pair, yield a failure when the guids collide,
then yield a success; the loop breaks at the last element. -/
def dupScan : List Feature → List (Bool × String)
| f :: fplus1 :: rest =>
  (if f.guid = fplus1.guid then [(false, dupFailMsg f fplus1)] else []) ++
    (true, "OK: all GUIDs are unique") :: dupScan (fplus1 :: rest)
| _ => []

/-- `__disallow_nonunique_guids` of model.py: sort the features by guid
(stably) and scan adjacent pairs for colliding guids. -/
def __disallow_nonunique_guids : List Feature → List (Bool × String) :=
  graph_rule fun features => dupScan (List.insertionSort guidLe features)

/-- `_default_edge_rules` of model.py. -/
def _default_edge_rules : List (Feature → Feature → Bool × String) :=
  [__disallow_obligatory_mutual_exclusion, __disallow_conflicting_relationships]

/-- `_default_graph_rules` of model.py. -/
def _default_graph_rules : List (List Feature → List (Bool × String)) :=
  [__disallow_nonunique_guids]

/-- `FeatureContainer` dataclass of model.py.  The `edge_rules` and
`graph_rules` fields are declared with `init=False` and are always the
default factory lists, so they are exposed as the constant accessors
below rather than stored. -/
structure FeatureContainer where
  features : List Feature
  version : String
  debug : Bool
deriving DecidableEq

/-- The `edge_rules` field (always `_default_edge_rules`). -/
def FeatureContainer.edge_rules (_ : FeatureContainer) :
    List (Feature → Feature → Bool × String) :=
  _default_edge_rules

/-- The `graph_rules` field (always `_default_graph_rules`). -/
def FeatureContainer.graph_rules (_ : FeatureContainer) :
    List (List Feature → List (Bool × String)) :=
  _default_graph_rules

/-- `FeatureContainer.get_feature_by_guid` of model.py: filter the
features on the guid; zero matches raise `NoSuchFeatureException`, one
match is returned, several matches raise `FeatureGuidException`. -/
def FeatureContainer.get_feature_by_guid (c : FeatureContainer) (guid : Int) :
    Except Err Feature :=
  match c.features.filter (fun f => decide (f.guid = guid)) with
  | [] => .error (.noSuchFeature ("No feature with guid " ++ toString guid))
  | [f] => .ok f
  | _ => .error (.featureGuid ("Multiple features with guid " ++ toString guid ++
      "! This is not allowed."))

/-- A list comprehension whose element expression may raise: produce the
elements in order, stopping at the first raised error. -/
def mapExcept {α β : Type} (f : α → Except Err β) : List α → Except Err (List β)
| [] => .ok []
| x :: xs =>
  match f x with
  | .error e => .error e
  | .ok y =>
    match mapExcept f xs with
    | .error e => .error e
    | .ok ys => .ok (y :: ys)

/-- The element expression of the `edges` comprehension: keep the source
feature and resolve the target guid, propagating the lookup failure. -/
def edgeLookup (c : FeatureContainer) (p : Feature × Int) :
    Except Err (Feature × Feature) :=
  match c.get_feature_by_guid p.2 with
  | .error e => .error e
  | .ok g => .ok (p.1, g)

/-- The `edges` property of model.py:
`[(f, self.get_feature_by_guid(r.guid)) for f in self.features for r in f.relationships]`,
raising the first failing guid lookup. -/
def FeatureContainer.edges (c : FeatureContainer) :
    Except Err (List (Feature × Feature)) :=
  mapExcept (edgeLookup c)
    (c.features.flatMap (fun f => f.relationships.map (fun r => (f, r.guid))))

/-- The values a `Feature.__dict__` entry can hold, for the node export. -/
inductive AttrValue
| s (v : String)
| bt (v : BindingTime)
| b (v : Bool)
| rels (v : List Relationship)
deriving DecidableEq

/-- `{k: v for k, v in f.__dict__.items() if k != "guid"}`: the fields of
a `Feature` other than `guid`, in dataclass declaration order. -/
def Feature.attrs (f : Feature) : List (String × AttrValue) :=
  [("name", .s f.name),
   ("binding_time", .bt f.binding_time),
   ("rationale", .s f.rationale),
   ("is_mandatory", .b f.is_mandatory),
   ("relationships", .rels f.relationships)]

/-- The `nx_nodes` property of model.py: one `(guid, attribute-map)`
entry per feature. -/
def FeatureContainer.nx_nodes (c : FeatureContainer) :
    List (Int × List (String × AttrValue)) :=
  c.features.map (fun f => (f.guid, f.attrs))

/-- `functools.reduce` without an initial value: raises TypeError on an
empty sequence, otherwise folds from the first element. -/
def reduce {α : Type} (f : α → α → α) : List α → Except Err α
| [] => .error .pyTypeError
| x :: xs => .ok (xs.foldl f x)

/-- The `nx_edges` property of model.py:
`reduce(lambda x, y: x + y, [[(f.guid, r.guid) for r in f.relationships] for f in self.features])`. -/
def FeatureContainer.nx_edges (c : FeatureContainer) :
    Except Err (List (Int × Int)) :=
  reduce (fun x y => x ++ y)
    (c.features.map (fun f => f.relationships.map (fun r => (f.guid, r.guid))))

/-- The raising loop of `compile` over a verdict list: return unit if
every verdict is satisfied, otherwise raise `CompileException` with the
message of the first unsatisfied verdict. -/
def runVerdicts : List (Bool × String) → Except Err Unit
| [] => .ok ()
| (is_rule_met, message) :: rest =>
  if is_rule_met then runVerdicts rest else .error (.compileExc message)

/-- The edge-phase verdict list of `compile`:
`[r(f1, f2) for f1, f2 in self.edges for r in self.edge_rules]`
(edge-major: for each edge, each edge rule). -/
def FeatureContainer.edgeVerdicts (c : FeatureContainer)
    (es : List (Feature × Feature)) : List (Bool × String) :=
  es.flatMap (fun fg => c.edge_rules.map (fun r => r fg.1 fg.2))

/-- The graph-phase verdict list of `compile`:
`[t for r in self.graph_rules for t in r(self.features)]`
(rule-major: each graph rule contributes its whole verdict sequence). -/
def FeatureContainer.graphVerdicts (c : FeatureContainer) : List (Bool × String) :=
  c.graph_rules.flatMap (fun r => r c.features)

/-- `FeatureContainer.compile` of model.py: derive the edges (propagating
a failed guid lookup), run every edge rule over every edge raising on the
first unsatisfied verdict, then run every graph rule over the feature
list with the same policy. -/
def FeatureContainer.compile (c : FeatureContainer) : Except Err Unit :=
  match c.edges with
  | .error e => .error e
  | .ok es =>
    match runVerdicts (c.edgeVerdicts es) with
    | .error e => .error e
    | .ok _ => runVerdicts c.graphVerdicts

/-- `compile` paired with the post-state of the container.  No statement
in the source method assigns to `self` or to any of its fields — the
body only reads `self.edges`, `self.edge_rules`, `self.graph_rules`,
`self.features` and `self.debug` — so the state threaded through the
translation is returned unchanged. -/
def FeatureContainer.compileRun (c : FeatureContainer) :
    Except Err Unit × FeatureContainer :=
  (c.compile, c)

/-- The first unsatisfied verdict of a verdict list, as the specification
words it: the message of the first entry whose Boolean is false. -/
def firstFailingMessage (vs : List (Bool × String)) : Option String :=
  (vs.find? (fun v => !v.1)).map Prod.snd

/- Concrete containers used by witnesses and counterexamples. -/

/-- Scenario B feature F1: mandatory, incompatible with guid 1. -/
def fB1 : Feature := ⟨0, "F1", .COMPILATION, "r1", true, [⟨1, .INCOMPATIBLE⟩]⟩

/-- Scenario B feature F2: mandatory, no relationships. -/
def fB2 : Feature := ⟨1, "F2", .COMPILATION, "r2", true, []⟩

/-- Scenario B container: two mandatory features joined by an
INCOMPATIBLE relationship. -/
def cB : FeatureContainer := ⟨[fB1, fB2], "0.1.0", false⟩

/-- A feature with guid 5 that also declares a relationship to guid 5. -/
def fDup1 : Feature := ⟨5, "F1", .COMPILATION, "r1", false, [⟨5, .ALTERNATIVE⟩]⟩

/-- A second feature with guid 5, no relationships. -/
def fDup2 : Feature := ⟨5, "F2", .COMPILATION, "r2", false, []⟩

/-- A container with two features sharing guid 5, one of which declares a
relationship targeting that duplicated guid. -/
def cDup : FeatureContainer := ⟨[fDup1, fDup2], "0.1.0", false⟩

/-- Scenario D feature: guid 5, no relationships. -/
def fD1 : Feature := ⟨5, "F1", .COMPILATION, "r1", false, []⟩

/-- Scenario D second feature: guid 5 again, no relationships. -/
def fD2 : Feature := ⟨5, "F2", .COMPILATION, "r2", false, []⟩

/-- Scenario D container: two features sharing guid 5 and declaring no
relationships. -/
def cD : FeatureContainer := ⟨[fD1, fD2], "0.1.0", false⟩

/-- A feature declaring a relationship to its own guid. -/
def selfF : Feature := ⟨0, "SelfRef", .COMPILATION, "r", true, [⟨0, .COMPLEX⟩]⟩

/-- A container whose only feature relates to itself. -/
def selfC : FeatureContainer := ⟨[selfF], "0.1.0", false⟩

/-- A feature whose only relationship targets a guid that no feature in
its container has. -/
def fMiss : Feature := ⟨0, "F", .COMPILATION, "r", true, [⟨9, .ALTERNATIVE⟩]⟩

/-- A container whose single relationship targets the missing guid 9. -/
def cMiss : FeatureContainer := ⟨[fMiss], "0.1.0", false⟩

/-- The container with no features at all. -/
def emptyC : FeatureContainer := ⟨[], "0.1.0", false⟩

/- Helper lemmas about the embedded operations. -/

theorem findRel_eq_find? (guid : Int) (l : List Relationship) :
    findRel guid l = l.find? (fun r => decide (r.guid = guid)) := by
  induction l with
  | nil => rfl
  | cons r rest ih =>
    by_cases h : r.guid = guid
    · simp [findRel, h]
    · simp [findRel, h, ih]

theorem findRel_isSome_iff (guid : Int) (l : List Relationship) :
    (findRel guid l).isSome = true ↔ ∃ r ∈ l, r.guid = guid := by
  induction l with
  | nil => simp [findRel]
  | cons r rest ih =>
    by_cases h : r.guid = guid
    · simp [findRel, h]
    · simp [findRel, h, ih]

theorem get_rel_to_drop (f g : Feature) :
    f.get_rel_to g true = findRel g.guid f.relationships := by
  unfold Feature.get_rel_to
  cases h : findRel g.guid f.relationships <;> simp [h]

theorem get_rel_to_isSome (f g : Feature) :
    (f.get_rel_to g false).isSome =
      ((findRel g.guid f.relationships).isSome ||
        (findRel f.guid g.relationships).isSome) := by
  unfold Feature.get_rel_to
  cases h : findRel g.guid f.relationships <;> simp [h]

theorem runVerdicts_append (a b : List (Bool × String)) :
    runVerdicts (a ++ b) =
      match runVerdicts a with
      | .error e => .error e
      | .ok _ => runVerdicts b := by
  induction a with
  | nil => rfl
  | cons v rest ih =>
    obtain ⟨met, msg⟩ := v
    cases met <;> simp [runVerdicts, ih]

theorem runVerdicts_eq_firstFailing (vs : List (Bool × String)) :
    runVerdicts vs =
      match firstFailingMessage vs with
      | some m => .error (.compileExc m)
      | none => .ok () := by
  induction vs with
  | nil => rfl
  | cons v rest ih =>
    obtain ⟨met, msg⟩ := v
    cases met with
    | false => simp [runVerdicts, firstFailingMessage, List.find?]
    | true => simpa [runVerdicts, firstFailingMessage, List.find?] using ih

theorem runVerdicts_error_of_mem (vs : List (Bool × String)) (m : String)
    (h : (false, m) ∈ vs) :
    ∃ m2, runVerdicts vs = .error (.compileExc m2) ∧ (false, m2) ∈ vs := by
  induction vs with
  | nil => cases h
  | cons v rest ih =>
    obtain ⟨met, msg⟩ := v
    cases met with
    | false => exact ⟨msg, rfl, List.mem_cons_self ..⟩
    | true =>
      have hrest : (false, m) ∈ rest := by
        rcases List.mem_cons.mp h with heq | hr
        · cases heq
        · exact hr
      obtain ⟨m2, hrun, hmem⟩ := ih hrest
      exact ⟨m2, by simpa [runVerdicts] using hrun, List.mem_cons_of_mem _ hmem⟩

theorem mapExcept_ok_forall {α β : Type} (f : α → Except Err β) (l : List α)
    (ys : List β) (h : mapExcept f l = .ok ys) :
    ∀ x ∈ l, ∃ y, f x = .ok y ∧ y ∈ ys := by
  induction l generalizing ys with
  | nil => intro x hx; cases hx
  | cons a rest ih =>
    intro x hx
    unfold mapExcept at h
    cases hf : f a with
    | error e => rw [hf] at h; cases h
    | ok y =>
      rw [hf] at h
      cases hm : mapExcept f rest with
      | error e => rw [hm] at h; cases h
      | ok ys' =>
        rw [hm] at h
        cases h
        rcases List.mem_cons.mp hx with heq | hr
        · exact ⟨y, heq ▸ hf, List.mem_cons_self ..⟩
        · obtain ⟨y', hy', hmem⟩ := ih ys' hm x hr
          exact ⟨y', hy', List.mem_cons_of_mem _ hmem⟩

theorem mapExcept_error_exists {α β : Type} (f : α → Except Err β)
    (P : Err → Bool) (l : List α)
    (hP : ∀ x ∈ l, ∀ e, f x = .error e → P e = true)
    (x0 : α) (hx0 : x0 ∈ l) (e0 : Err) (he0 : f x0 = .error e0) :
    ∃ e, mapExcept f l = .error e ∧ P e = true := by
  induction l with
  | nil => cases hx0
  | cons a rest ih =>
    cases hf : f a with
    | error e =>
      exact ⟨e, by simp [mapExcept, hf], hP a (List.mem_cons_self ..) e hf⟩
    | ok y =>
      have hx0' : x0 ∈ rest := by
        rcases List.mem_cons.mp hx0 with heq | hr
        · subst heq; rw [hf] at he0; cases he0
        · exact hr
      obtain ⟨e, hm, hPe⟩ :=
        ih (fun x hx e he => hP x (List.mem_cons_of_mem _ hx) e he) hx0'
      exact ⟨e, by simp [mapExcept, hf, hm], hPe⟩

theorem get_feature_by_guid_error_lookup (c : FeatureContainer) (guid : Int)
    (e : Err) (h : c.get_feature_by_guid guid = .error e) :
    e.isLookupFailure = true := by
  unfold FeatureContainer.get_feature_by_guid at h
  split at h
  · cases h; rfl
  · cases h
  · cases h; rfl

theorem get_feature_by_guid_ok_filter (c : FeatureContainer) (guid : Int)
    (g : Feature) (h : c.get_feature_by_guid guid = .ok g) :
    c.features.filter (fun f => decide (f.guid = guid)) = [g] := by
  unfold FeatureContainer.get_feature_by_guid at h
  split at h
  · cases h
  · cases h; assumption
  · cases h

theorem get_feature_by_guid_ok_self (c : FeatureContainer) (f g : Feature)
    (hf : f ∈ c.features) (h : c.get_feature_by_guid f.guid = .ok g) : g = f := by
  have hfil := get_feature_by_guid_ok_filter c f.guid g h
  have hmem : f ∈ c.features.filter (fun x => decide (x.guid = f.guid)) :=
    List.mem_filter.mpr ⟨hf, by simp⟩
  rw [hfil] at hmem
  rcases List.mem_cons.mp hmem with heq | hr
  · exact heq.symm
  · cases hr

theorem foldl_append_eq {α : Type} (xs : List (List α)) (a : List α) :
    xs.foldl (fun x y => x ++ y) a = a ++ xs.flatten := by
  induction xs generalizing a with
  | nil => simp
  | cons x xs ih => simp [ih, List.append_assoc]

theorem findRel_some (guid : Int) (l : List Relationship) (r : Relationship)
    (h : findRel guid l = some r) : r ∈ l ∧ r.guid = guid := by
  induction l with
  | nil => cases h
  | cons a rest ih =>
    unfold findRel at h
    by_cases ha : a.guid = guid
    · rw [if_pos ha] at h
      injection h with h
      subst h
      exact ⟨List.mem_cons_self .., ha⟩
    · rw [if_neg ha] at h
      obtain ⟨hmem, hguid⟩ := ih h
      exact ⟨List.mem_cons_of_mem _ hmem, hguid⟩

theorem get_rel_to_false_of_own (f g : Feature) (r : Relationship)
    (h : findRel g.guid f.relationships = some r) :
    f.get_rel_to g false = some r := by
  unfold Feature.get_rel_to
  rw [h]

/- The claim theorems. -/

/-- Claim C2: the mutual-exclusion edge rule fails exactly when the
relationship found between the pair (from either declaring side, first
match wins) has kind INCOMPATIBLE and both features are mandatory; the
failing message names both features, and in every other case (other
kind, an optional feature, or no relationship at all) the rule returns a
success verdict, so compile cannot fail on this rule there. -/
theorem c2_mutual_exclusion_rule (f g : Feature) :
    ((__disallow_obligatory_mutual_exclusion f g).1 = false ↔
      (∃ r, f.get_rel_to g false = some r ∧ r.rel = RelationshipTypes.INCOMPATIBLE) ∧
        f.is_mandatory = true ∧ g.is_mandatory = true) ∧
    ((__disallow_obligatory_mutual_exclusion f g).1 = false →
      (__disallow_obligatory_mutual_exclusion f g).2 = exclusionFailMsg f g) ∧
    ((__disallow_obligatory_mutual_exclusion f g).1 = true →
      (__disallow_obligatory_mutual_exclusion f g).2 = exclusionOkMsg f g) := by
  unfold __disallow_obligatory_mutual_exclusion edge_rule
  cases hrel : f.get_rel_to g false with
  | none => simp [hrel]
  | some rel =>
    by_cases hc : rel.rel = RelationshipTypes.INCOMPATIBLE ∧
        f.is_mandatory = true ∧ g.is_mandatory = true
    · simp only [hrel, if_pos hc]
      simp [hc]
    · simp only [hrel, if_neg hc]
      refine ⟨⟨fun hff => absurd hff (by decide), ?_⟩,
        fun hff => absurd hff (by decide), fun _ => trivial⟩
      rintro ⟨⟨r, hr, hinc⟩, hf2, hg2⟩
      injection hr with hr
      subst hr
      exact (hc ⟨hinc, hf2, hg2⟩).elim

/-- Claim C5 counterexample: the container whose single feature declares
a relationship to its own guid.  The derived edge list — the exact pair
list compile runs every edge rule on — contains the self-pair, and
compile does evaluate the edge rules on it (the conflict rule even fails
on it), so self-relationships are not rejected before rule evaluation. -/
theorem c5_counterexample :
    selfC.edges = Except.ok [(selfF, selfF)] ∧
    selfC.compile = Except.error (Err.compileExc (conflictFailMsg selfF selfF)) :=
  ⟨rfl, rfl⟩

/-- Claim C5 as amended: self-relationships are NOT rejected.  Whenever a
feature of the container declares a relationship targeting its own guid
and the edge list derives successfully, the pair (f, f) is among the
pairs on which compile evaluates every edge rule. -/
theorem c5_amended_self_pair_reaches_rules (c : FeatureContainer)
    (es : List (Feature × Feature)) (f : Feature) (r : Relationship)
    (h1 : c.edges = Except.ok es) (hf : f ∈ c.features)
    (hr : r ∈ f.relationships) (hg : r.guid = f.guid) :
    (f, f) ∈ es := by
  have hp : (f, r.guid) ∈
      c.features.flatMap (fun f2 => f2.relationships.map (fun r2 => (f2, r2.guid))) :=
    List.mem_flatMap.mpr ⟨f, hf, List.mem_map.mpr ⟨r, hr, rfl⟩⟩
  obtain ⟨y, hy, hymem⟩ := mapExcept_ok_forall _ _ es h1 (f, r.guid) hp
  unfold edgeLookup at hy
  cases hlook : c.get_feature_by_guid r.guid with
  | error e =>
    simp only [hlook] at hy
    exact Except.noConfusion hy
  | ok g =>
    simp only [hlook, Except.ok.injEq] at hy
    rw [hg] at hlook
    have hgf := get_feature_by_guid_ok_self c f g hf hlook
    subst hgf
    subst hy
    exact hymem

/-- Claim C5 witness for the amended statement, at the concrete
self-relating container. -/
theorem c5_amended_witness : (selfF, selfF) ∈ [(selfF, selfF)] :=
  c5_amended_self_pair_reaches_rules selfC [(selfF, selfF)] selfF
    ⟨0, .COMPLEX⟩ rfl (by simp [selfC]) (by simp [selfF]) rfl

/-- Claim C7: relationship lookup is symmetric in existence —
`f.has_rel_to g` equals `g.has_rel_to f` — and the object the default
lookup returns is the first matching entry of the callee's own declared
list if one exists, otherwise the first matching entry of the peer's
declared list, otherwise none. -/
theorem c7_lookup_symmetry (f g : Feature) :
    f.has_rel_to g = g.has_rel_to f ∧
    f.get_rel_to g false =
      (match f.relationships.find? (fun r => decide (r.guid = g.guid)) with
       | some r => some r
       | none => g.relationships.find? (fun r => decide (r.guid = f.guid))) := by
  constructor
  · unfold Feature.has_rel_to
    rw [get_rel_to_isSome, get_rel_to_isSome, Bool.or_comm]
  · unfold Feature.get_rel_to
    rw [← findRel_eq_find?, ← findRel_eq_find?]
    cases h : findRel g.guid f.relationships <;> simp

/-- Claim C8: compile does not mutate the container — the post-state of
a compile run is the input container, every field included — and
compiling the resulting container again returns the very same outcome
(same success, or same error with the same message). -/
theorem c8_compile_pure_and_idempotent (c : FeatureContainer) :
    c.compileRun.2 = c ∧ c.compileRun.2.compileRun = c.compileRun :=
  ⟨rfl, rfl⟩

/-- Claim C9 counterexample: the empty container declares no
relationships at all, so the claimed edge export would be the empty
sequence, yet `nx_edges` raises (reduce over an empty list with no
initial value) instead of returning it. -/
theorem c9_counterexample :
    emptyC.features = [] ∧ emptyC.nx_edges = Except.error Err.pyTypeError :=
  ⟨rfl, rfl⟩

/-- Claim C9 as amended: the node export always returns one
(guid, attribute-map) entry per feature, the attribute map holding every
Feature field except the guid; and for every container with at least one
feature the edge export returns one (source guid, target guid) tuple per
declared relationship in feature-then-relationship declaration order.
Both are computed purely structurally — no guid resolution, no rule
evaluation — so they work on uncompiled and invalid graphs alike. -/
theorem c9_amended_exports (c : FeatureContainer) (h : c.features ≠ []) :
    c.nx_nodes = c.features.map (fun f => (f.guid, f.attrs)) ∧
    c.nx_edges = Except.ok
      (c.features.flatMap (fun f => f.relationships.map (fun r => (f.guid, r.guid)))) := by
  refine ⟨rfl, ?_⟩
  unfold FeatureContainer.nx_edges
  cases hfs : c.features with
  | nil => exact absurd hfs h
  | cons f fs =>
    simp [reduce, foldl_append_eq, List.flatMap_def]

/-- Claim C9 witness for the amended statement, at a container that is
invalid (duplicate guids, and compile even aborts with a lookup failure)
yet exports fine. -/
theorem c9_amended_witness :
    cDup.nx_nodes = cDup.features.map (fun f => (f.guid, f.attrs)) ∧
    cDup.nx_edges = Except.ok
      (cDup.features.flatMap (fun f => f.relationships.map (fun r => (f.guid, r.guid)))) :=
  c9_amended_exports cDup (by simp [cDup])

/-- Claim C10: on a container with no features, the `nx_edges` export
raises (the underlying reduce is applied to an empty list with no
initial value) even though the `edges` property returns the empty list
for the same container. -/
theorem c10_empty_nx_edges_raises (c : FeatureContainer) (h : c.features = []) :
    c.nx_edges = Except.error Err.pyTypeError ∧ c.edges = Except.ok [] := by
  constructor
  · unfold FeatureContainer.nx_edges
    rw [h]
    rfl
  · unfold FeatureContainer.edges
    rw [h]
    rfl

/-- Claim C10 witness at the concrete empty container. -/
theorem c10_witness :
    emptyC.nx_edges = Except.error Err.pyTypeError ∧ emptyC.edges = Except.ok [] :=
  c10_empty_nx_edges_raises emptyC rfl

/-- Claim C1: when the edge list derives successfully, compile returns
the claimed first-failing-verdict semantics over the claimed verdict
order — every edge rule on every derived edge (edge-major, edge rules in
list order) followed, only after all of those, by every graph rule's
verdict sequence in graph-rule list order; the first unsatisfied verdict
anywhere yields a CompileException carrying exactly its message, and if
no verdict is unsatisfied compile returns unit. -/
theorem c1_compile_first_failing_verdict (c : FeatureContainer)
    (es : List (Feature × Feature)) (h : c.edges = Except.ok es) :
    c.compile =
      match firstFailingMessage (c.edgeVerdicts es ++ c.graphVerdicts) with
      | some m => Except.error (Err.compileExc m)
      | none => Except.ok () := by
  conv_rhs => rw [← runVerdicts_eq_firstFailing]
  rw [runVerdicts_append]
  unfold FeatureContainer.compile
  rw [h]

/-- Claim C1 witness at scenario B (a failing mutual-exclusion verdict). -/
theorem c1_witness :
    cB.compile =
      match firstFailingMessage (cB.edgeVerdicts [(fB1, fB2)] ++ cB.graphVerdicts) with
      | some m => Except.error (Err.compileExc m)
      | none => Except.ok () :=
  c1_compile_first_failing_verdict cB [(fB1, fB2)] rfl

/-- Claim C3: the conflict edge rule fails exactly when both features
declare, each in its own relationship list (no reverse lookup), an entry
targeting the other's guid; when both declare, the failing message is
built from the two first matching declared relationships, whose
dataclass reprs carry both relationship kinds; when at most one side
declares, the rule returns the success verdict. -/
theorem c3_conflict_rule (f g : Feature) :
    ((__disallow_conflicting_relationships f g).1 = false ↔
      (∃ r ∈ f.relationships, r.guid = g.guid) ∧
        (∃ r ∈ g.relationships, r.guid = f.guid)) ∧
    (∀ rf rg, findRel g.guid f.relationships = some rf →
      findRel f.guid g.relationships = some rg →
      (__disallow_conflicting_relationships f g).1 = false ∧
      (__disallow_conflicting_relationships f g).2 = conflictMsgOf f g rf rg) ∧
    ((__disallow_conflicting_relationships f g).1 = true →
      (__disallow_conflicting_relationships f g).2 = "OK: no conflicting relationships") := by
  simp only [__disallow_conflicting_relationships, edge_rule, get_rel_to_drop]
  cases hf : findRel g.guid f.relationships with
  | none =>
    refine ⟨by simp [← findRel_isSome_iff, hf], ?_, by intro _; simp⟩
    intro rf rg hrf
    exact Option.noConfusion hrf
  | some rf0 =>
    cases hg : findRel f.guid g.relationships with
    | none =>
      refine ⟨by simp [← findRel_isSome_iff, hf, hg], ?_, by intro _; simp⟩
      intro rf rg _ hrg
      exact Option.noConfusion hrg
    | some rg0 =>
      have hmsg : conflictFailMsg f g = conflictMsgOf f g rf0 rg0 := by
        unfold conflictFailMsg conflictMsgOf
        rw [get_rel_to_false_of_own f g rf0 hf, get_rel_to_false_of_own g f rg0 hg]
        rfl
      refine ⟨by simp [← findRel_isSome_iff, hf, hg], ?_, by intro hff; simp at hff⟩
      intro rf rg hrf hrg
      injection hrf with hrf
      injection hrg with hrg
      subst hrf
      subst hrg
      simp [hmsg]

/-- Claim C6: guid resolution filters the feature list on the guid —
zero matches raise NoSuchFeatureException, exactly one match returns the
feature, several matches raise FeatureGuidException — and consequently,
when any declared relationship targets a guid matching no feature,
compile surfaces a fatal lookup failure instead of a rule violation. -/
theorem c6_guid_resolution (c : FeatureContainer) (guid : Int) :
    (c.features.filter (fun f => decide (f.guid = guid)) = [] →
      c.get_feature_by_guid guid =
        Except.error (Err.noSuchFeature ("No feature with guid " ++ toString guid))) ∧
    (∀ f, c.features.filter (fun f2 => decide (f2.guid = guid)) = [f] →
      c.get_feature_by_guid guid = Except.ok f) ∧
    (∀ f1 f2 rest, c.features.filter (fun f3 => decide (f3.guid = guid)) = f1 :: f2 :: rest →
      c.get_feature_by_guid guid =
        Except.error (Err.featureGuid ("Multiple features with guid " ++ toString guid ++
          "! This is not allowed."))) ∧
    (∀ f r, f ∈ c.features → r ∈ f.relationships →
      c.features.filter (fun f2 => decide (f2.guid = r.guid)) = [] →
      ∃ e, c.compile = Except.error e ∧ e.isLookupFailure = true) := by
  refine ⟨?_, ?_, ?_, ?_⟩
  · intro hfil
    unfold FeatureContainer.get_feature_by_guid
    rw [hfil]
  · intro f hfil
    unfold FeatureContainer.get_feature_by_guid
    rw [hfil]
  · intro f1 f2 rest hfil
    unfold FeatureContainer.get_feature_by_guid
    rw [hfil]
  · intro f r hf hr hfil
    have hlook : c.get_feature_by_guid r.guid =
        .error (.noSuchFeature ("No feature with guid " ++ toString r.guid)) := by
      unfold FeatureContainer.get_feature_by_guid
      rw [hfil]
    have hp : (f, r.guid) ∈
        c.features.flatMap (fun f2 => f2.relationships.map (fun r2 => (f2, r2.guid))) :=
      List.mem_flatMap.mpr ⟨f, hf, List.mem_map.mpr ⟨r, hr, rfl⟩⟩
    have hfx : edgeLookup c (f, r.guid) =
        Except.error (Err.noSuchFeature ("No feature with guid " ++ toString r.guid)) := by
      unfold edgeLookup
      simp only [hlook]
    obtain ⟨e, hedges, he⟩ := mapExcept_error_exists (edgeLookup c) Err.isLookupFailure _
      (by
        intro x hx e2 hx2
        unfold edgeLookup at hx2
        cases hl : c.get_feature_by_guid x.2 with
        | error e3 =>
          simp only [hl] at hx2
          injection hx2 with hx2
          subst hx2
          exact get_feature_by_guid_error_lookup c x.2 e3 hl
        | ok g2 =>
          simp only [hl] at hx2
          exact Except.noConfusion hx2)
      (f, r.guid) hp _ hfx
    refine ⟨e, ?_, he⟩
    unfold FeatureContainer.compile
    have hce : c.edges = .error e := hedges
    rw [hce]

/-- Claim C6 witness: a container whose only relationship targets the
missing guid 9; compile surfaces the lookup failure. -/
theorem c6_witness : ∃ e, cMiss.compile = Except.error e ∧ e.isLookupFailure = true :=
  (c6_guid_resolution cMiss 9).2.2.2 fMiss ⟨9, .ALTERNATIVE⟩
    (by simp [cMiss]) (by simp [fMiss]) rfl

theorem sorted_dup_adjacent (l : List Feature) (hs : List.Pairwise guidLe l)
    (hnp : ¬ l.Pairwise (fun a b => a.guid ≠ b.guid)) :
    ∃ l1 a b l2, l = l1 ++ a :: b :: l2 ∧ a.guid = b.guid := by
  induction l with
  | nil => exact absurd List.Pairwise.nil hnp
  | cons x xs ih =>
    cases xs with
    | nil => exact absurd (List.pairwise_singleton _ x) hnp
    | cons y rest =>
      by_cases hxy : x.guid = y.guid
      · exact ⟨[], x, y, rest, rfl, hxy⟩
      · have hs' := hs.of_cons
        have hxley : guidLe x y := (List.pairwise_cons.mp hs).1 y (List.mem_cons_self ..)
        have hnp' : ¬ (y :: rest).Pairwise (fun a b => a.guid ≠ b.guid) := by
          intro hp
          apply hnp
          refine List.pairwise_cons.mpr ⟨?_, hp⟩
          intro z hz
          rcases List.mem_cons.mp hz with hzy | hzr
          · subst hzy; exact hxy
          · have hylez : guidLe y z := (List.pairwise_cons.mp hs').1 z hzr
            have hlt : x.guid < y.guid := lt_of_le_of_ne hxley hxy
            exact ne_of_lt (lt_of_lt_of_le hlt hylez)
        obtain ⟨l1, a, b, l2, heq, hab⟩ := ih hs' hnp'
        exact ⟨x :: l1, a, b, l2, by rw [heq]; rfl, hab⟩

theorem mem_dupScan_cons (x y : Feature) (rest : List Feature) (v : Bool × String)
    (h : v ∈ dupScan (y :: rest)) : v ∈ dupScan (x :: y :: rest) := by
  have hdef : dupScan (x :: y :: rest) =
      (if x.guid = y.guid then [(false, dupFailMsg x y)] else []) ++
        (true, "OK: all GUIDs are unique") :: dupScan (y :: rest) := rfl
  rw [hdef]
  exact List.mem_append_right _ (List.mem_cons_of_mem _ h)

theorem mem_dupScan_adjacent (l1 : List Feature) (a b : Feature) (l2 : List Feature)
    (hab : a.guid = b.guid) :
    (false, dupFailMsg a b) ∈ dupScan (l1 ++ a :: b :: l2) := by
  induction l1 with
  | nil =>
    have hdef : dupScan (a :: b :: l2) =
        (if a.guid = b.guid then [(false, dupFailMsg a b)] else []) ++
          (true, "OK: all GUIDs are unique") :: dupScan (b :: l2) := rfl
    rw [List.nil_append, hdef, if_pos hab]
    exact List.mem_append_left _ (List.mem_cons_self ..)
  | cons x l1 ih =>
    cases hl : l1 ++ a :: b :: l2 with
    | nil => exact absurd hl (by simp)
    | cons y t =>
      have hmem := ih
      rw [hl] at hmem
      rw [List.cons_append, hl]
      exact mem_dupScan_cons x y t _ hmem

theorem dupScan_fail_inv (l : List Feature) (m : String)
    (h : (false, m) ∈ dupScan l) :
    ∃ a b, a ∈ l ∧ b ∈ l ∧ a.guid = b.guid ∧ m = dupFailMsg a b ∧
      [a, b].Sublist l := by
  induction l with
  | nil => exact absurd h (List.not_mem_nil _)
  | cons x xs ih =>
    cases xs with
    | nil => exact absurd h (by simp [dupScan])
    | cons y rest =>
      have hdef : dupScan (x :: y :: rest) =
          (if x.guid = y.guid then [(false, dupFailMsg x y)] else []) ++
            (true, "OK: all GUIDs are unique") :: dupScan (y :: rest) := rfl
      rw [hdef] at h
      rcases List.mem_append.mp h with hleft | hright
      · by_cases hxy : x.guid = y.guid
        · rw [if_pos hxy] at hleft
          rcases List.mem_cons.mp hleft with heq | hnil
          · injection heq with h1 h2
            exact ⟨x, y, List.mem_cons_self ..,
              List.mem_cons_of_mem _ (List.mem_cons_self ..), hxy, h2,
              List.Sublist.cons₂ x (List.Sublist.cons₂ y (List.nil_sublist rest))⟩
          · exact absurd hnil (List.not_mem_nil _)
        · rw [if_neg hxy] at hleft
          exact absurd hleft (List.not_mem_nil _)
      · rcases List.mem_cons.mp hright with heq | htail
        · injection heq with h1 h2
          exact absurd h1 (by decide)
        · obtain ⟨a, b, ha, hb, hab, hm, hsub⟩ := ih htail
          exact ⟨a, b, List.mem_cons_of_mem _ ha, List.mem_cons_of_mem _ hb, hab, hm,
            List.Sublist.cons x hsub⟩

/-- Claim C4 counterexample: two features share guid 5 and one of them
declares a relationship targeting guid 5.  Compile raises
FeatureGuidException from edge derivation — not a CompileViolation
citing the colliding features — so the claim does not hold independently
of the relationships features declare. -/
theorem c4_counterexample :
    fDup1.guid = fDup2.guid ∧
    cDup.compile = Except.error
      (Err.featureGuid "Multiple features with guid 5! This is not allowed.") :=
  ⟨rfl, rfl⟩

/-- Claim C4 as amended: for every feature set containing two features
with the same guid, provided edge derivation succeeds and every edge
verdict passes, compile raises a CompileException whose message cites
two features sharing a guid (adjacent in the sorted order), regardless
of the features' position in the input order. -/
theorem c4_amended_duplicate_guids_fail_compile (c : FeatureContainer)
    (es : List (Feature × Feature))
    (h1 : c.edges = Except.ok es)
    (h2 : runVerdicts (c.edgeVerdicts es) = Except.ok ())
    (h3 : ¬ c.features.Pairwise (fun a b => a.guid ≠ b.guid)) :
    ∃ a b, a ∈ c.features ∧ b ∈ c.features ∧ a.guid = b.guid ∧
      [a, b].Sublist (List.insertionSort guidLe c.features) ∧
      c.compile = Except.error (Err.compileExc (dupFailMsg a b)) := by
  have hperm : (List.insertionSort guidLe c.features).Perm c.features :=
    List.perm_insertionSort guidLe c.features
  have hsorted : List.Pairwise guidLe (List.insertionSort guidLe c.features) :=
    List.sorted_insertionSort guidLe c.features
  have hnp : ¬ (List.insertionSort guidLe c.features).Pairwise
      (fun a b => a.guid ≠ b.guid) := by
    intro hp
    exact h3 ((List.Perm.pairwise_iff (fun h => Ne.symm h) hperm).mp hp)
  obtain ⟨l1, a0, b0, l2, heq, hab0⟩ := sorted_dup_adjacent _ hsorted hnp
  have hmem0 : (false, dupFailMsg a0 b0) ∈
      dupScan (List.insertionSort guidLe c.features) := by
    rw [heq]
    exact mem_dupScan_adjacent l1 a0 b0 l2 hab0
  have hgv : c.graphVerdicts = dupScan (List.insertionSort guidLe c.features) := by
    unfold FeatureContainer.graphVerdicts FeatureContainer.graph_rules
      _default_graph_rules __disallow_nonunique_guids graph_rule
    simp
  obtain ⟨m2, hrun, hmem2⟩ := runVerdicts_error_of_mem _ _ hmem0
  obtain ⟨a, b, ha, hb, hab, hm, hsub⟩ := dupScan_fail_inv _ m2 hmem2
  subst hm
  refine ⟨a, b, hperm.mem_iff.mp ha, hperm.mem_iff.mp hb, hab, hsub, ?_⟩
  unfold FeatureContainer.compile
  simp only [h1, h2, hgv, hrun]

/-- Claim C4 witness for the amended statement, at scenario D (two
features with guid 5, no relationships, so the edge phase passes). -/
theorem c4_amended_witness :
    ∃ a b, a ∈ cD.features ∧ b ∈ cD.features ∧ a.guid = b.guid ∧
      [a, b].Sublist (List.insertionSort guidLe cD.features) ∧
      cD.compile = Except.error (Err.compileExc (dupFailMsg a b)) :=
  c4_amended_duplicate_guids_fail_compile cD [] rfl rfl (by decide)

end FeatureEngine
